import Mathlib

/-!
Shallow embedding of the SteadyTimer C++/CLI wrapper (src/BoostTimer/BoostTimer.h).

Time is modelled as integer nanosecond counts on the steady clock.  The
boost::asio machinery the wrapper delegates to is embedded by its documented
value semantics:

* the steady_timer deadline handle holds one armed expiry instant and a queue of
  pending asynchronous wait operations, each carrying a handler identifier and
  a cancelled flag (the operation_aborted error code it will be completed with);
* setting a new expiry time (expires_at / expires_after / expires_from_now)
  cancels every pending operation;
* io_context.run processes every queued completion and then enters the stopped
  state; a stopped io_context processes nothing until reset (restart) is called;
* cancel marks every pending, not yet cancelled operation aborted and returns
  how many it marked; cancel_one does so for at most the first such operation.

Handlers are identified by natural numbers; the list of handler identifiers
actually invoked during a reactor run is returned explicitly, so that the
completion guard of AsyncWait (invoke the handler only when the error code is
not operation_aborted) is observable.  The current monotonic instant, read by
the real code from std::chrono::steady_clock::now, is passed as an explicit
argument to every operation that reads the clock.
-/

namespace TimerWrapper

/-- One pending asynchronous wait operation on the deadline handle: the
identifier of its registered completion handler, and whether the operation has
been cancelled (so that its completion will carry operation_aborted). -/
structure PendingOp where
  handler : Nat
  cancelled : Bool
deriving Repr, DecidableEq

/-- State of one SteadyTimer instance: the armed expiry instant of the
deadline handle (nanoseconds), the queue of pending asynchronous operations,
the stopped flag of the owned io_context, and the two stopwatch instants. -/
structure SteadyTimer where
  expiry : Int
  pending : List PendingOp
  ioStopped : Bool
  startTime : Int
  stopTime : Int
deriving Repr, DecidableEq

/-- State of a freshly constructed SteadyTimer: new io_context (not stopped),
no pending operations; the time points are value initialised to zero. -/
def SteadyTimer.new : SteadyTimer :=
  { expiry := 0, pending := [], ioStopped := false, startTime := 0, stopTime := 0 }

/-- Mark one pending operation cancelled, so its completion carries the
operation_aborted error code. -/
def PendingOp.abort (p : PendingOp) : PendingOp :=
  { p with cancelled := true }

/-- Core of steady_timer expiry setting (expires_at, expires_after,
expires_from_now): store the new expiry instant and cancel every pending
asynchronous wait operation. -/
def setExpiry (e : Int) (s : SteadyTimer) : SteadyTimer :=
  { s with expiry := e, pending := s.pending.map PendingOp.abort }

/-- boost steady_timer expires_after: arm the deadline at now plus the given
duration (here a nanosecond count), cancelling pending operations. -/
def expiresAfterPrim (now durNs : Int) (s : SteadyTimer) : SteadyTimer :=
  setExpiry (now + durNs) s

/-- boost steady_timer expires_from_now: arm the deadline at now plus the
given duration (here a nanosecond count), cancelling pending operations. -/
def expiresFromNowPrim (now durNs : Int) (s : SteadyTimer) : SteadyTimer :=
  setExpiry (now + durNs) s

/-- boost steady_timer async_wait: enqueue one asynchronous wait operation
whose completion will invoke the given handler. -/
def asyncWaitPrim (h : Nat) (s : SteadyTimer) : SteadyTimer :=
  { s with pending := s.pending ++ [{ handler := h, cancelled := false }] }

/-- The completion lambda registered by AsyncWait: invoke the handler exactly
when the error code is clear, i.e. the operation was not cancelled.  This is
the if (!ec) handler() guard of the source. -/
def completionInvokes (cancelled : Bool) : Bool :=
  !cancelled

/-- boost io_context run: if the context is stopped, return at once without
processing anything; otherwise process every queued completion (invoking the
handlers of the non cancelled operations, in queue order) until no work is
left, then enter the stopped state.  Returns the new state together with the
list of handler identifiers that were invoked. -/
def runPrim (s : SteadyTimer) : SteadyTimer × List Nat :=
  if s.ioStopped then (s, [])
  else ({ s with pending := [], ioStopped := true },
        (s.pending.filter (fun p => completionInvokes p.cancelled)).map PendingOp.handler)

/-- boost io_context reset (restart): clear the stopped state so the context
can be run again. -/
def resetPrim (s : SteadyTimer) : SteadyTimer :=
  { s with ioStopped := false }

/-- Nanoseconds per second. -/
def nsPerSecond : Int := 1000000000

/-- Nanoseconds per millisecond. -/
def nsPerMillisecond : Int := 1000000

/-- SteadyTimer.Start: record the current monotonic instant into the start
time point.  Side effect only. -/
def Start (now : Int) (s : SteadyTimer) : SteadyTimer :=
  { s with startTime := now }

/-- SteadyTimer.Stop: record the current monotonic instant into the stop time
point.  Side effect only. -/
def Stop (now : Int) (s : SteadyTimer) : SteadyTimer :=
  { s with stopTime := now }

/-- Value computed by SteadyTimer.GetElapsedSeconds: the stop minus start
difference put through duration_cast to seconds, which truncates toward zero
(C++ integer conversion), then the integral count is returned. -/
def GetElapsedSeconds (s : SteadyTimer) : Int :=
  Int.tdiv (s.stopTime - s.startTime) nsPerSecond

/-- Value computed by SteadyTimer.GetElapsedMilliseconds: duration_cast of the
stop minus start difference to milliseconds, truncating toward zero. -/
def GetElapsedMilliseconds (s : SteadyTimer) : Int :=
  Int.tdiv (s.stopTime - s.startTime) nsPerMillisecond

/-- Value computed by SteadyTimer.GetElapsedNanoseconds: duration_cast of the
stop minus start difference to nanoseconds, the native resolution. -/
def GetElapsedNanoseconds (s : SteadyTimer) : Int :=
  s.stopTime - s.startTime

/-- GetElapsedSeconds as the method executes: it returns the integral count
converted to double (exactly representable for any realistic duration, modelled
as an exact rational) and leaves the timer state as it was. -/
def GetElapsedSecondsM (s : SteadyTimer) : ℚ × SteadyTimer :=
  ((GetElapsedSeconds s : ℚ), s)

/-- GetElapsedMilliseconds as the method executes: integral count converted to
double, state unchanged. -/
def GetElapsedMillisecondsM (s : SteadyTimer) : ℚ × SteadyTimer :=
  ((GetElapsedMilliseconds s : ℚ), s)

/-- GetElapsedNanoseconds as the method executes: Int64 count, state
unchanged. -/
def GetElapsedNanosecondsM (s : SteadyTimer) : Int × SteadyTimer :=
  (GetElapsedNanoseconds s, s)

/-- SteadyTimer.Wait: block on the deadline handle until it expires.  It
touches no component of the timer state. -/
def Wait (s : SteadyTimer) : SteadyTimer :=
  s

/-- Seconds between the Windows FILETIME epoch (1601-01-01 UTC, the epoch of
DateTime.ToFileTime) and the Unix epoch (1970-01-01 UTC, the epoch of
time_t and std::chrono::system_clock). -/
def windowsToUnixEpochSeconds : Int := 11644473600

/-- Value semantics of std::chrono::system_clock::from_time_t applied to a
time_t value t: the instant t seconds after the Unix epoch, expressed here in
nanoseconds since the Unix epoch. -/
def fromTimeT (t : Int) : Int :=
  t * nsPerSecond

/-- The calendar instant that a DateTime with the given ToFileTime value
denotes: ToFileTime counts 100 nanosecond ticks since 1601-01-01 UTC, so the
instant is that many ticks past the Windows epoch, expressed here in
nanoseconds since the Unix epoch.  This is the specification side meaning of
the supplied timestamp, against which the armed expiry is compared. -/
def fileTimeInstant (ft : Int) : Int :=
  ft * 100 - windowsToUnixEpochSeconds * nsPerSecond

/-- SteadyTimer.ExpiresAt as the source computes it: the DateTime argument is
reduced to its ToFileTime value, cast to time_t, put through
system_clock::from_time_t, and the resulting instant is armed on the deadline
handle via expires_at (which cancels pending operations). -/
def ExpiresAt (ft : Int) (s : SteadyTimer) : SteadyTimer :=
  setExpiry (fromTimeT ft) s

/-- SteadyTimer.ExpiresFromNow: arm the deadline handle, via
expires_from_now, at the instant the given number of milliseconds after the
current instant.  No validation of the argument is performed. -/
def ExpiresFromNow (now ms : Int) (s : SteadyTimer) : SteadyTimer :=
  expiresFromNowPrim now (ms * nsPerMillisecond) s

/-- SteadyTimer.AsyncWait: arm the deadline (expires_after), register the
completion (async_wait with the if (!ec) handler() guard), drive the owned
io_context with run until it goes idle, then reset it.  Returns the new state
and the list of handler identifiers invoked during the run. -/
def AsyncWait (now ms : Int) (h : Nat) (s : SteadyTimer) : SteadyTimer × List Nat :=
  let s1 := expiresAfterPrim now (ms * nsPerMillisecond) s
  let s2 := asyncWaitPrim h s1
  let r := runPrim s2
  (resetPrim r.1, r.2)

/-- SteadyTimer.Cancel: mark every pending asynchronous operation cancelled
and return how many were newly cancelled (operations already carrying the
cancelled indicator are not counted again). -/
def Cancel (s : SteadyTimer) : SteadyTimer × Int :=
  ({ s with pending := s.pending.map PendingOp.abort },
   ((s.pending.filter (fun p => !p.cancelled)).length : Int))

/-- Helper for cancel_one: cancel the first not yet cancelled operation in the
queue, reporting 1 when one was found and 0 otherwise. -/
def cancelOneAux : List PendingOp → List PendingOp × Int
  | [] => ([], 0)
  | p :: rest =>
    if p.cancelled then
      let r := cancelOneAux rest
      (p :: r.1, r.2)
    else (p.abort :: rest, 1)

/-- SteadyTimer.CancelOne: cancel at most one pending asynchronous operation
and return how many (0 or 1) were cancelled. -/
def CancelOne (s : SteadyTimer) : SteadyTimer × Int :=
  let r := cancelOneAux s.pending
  ({ s with pending := r.1 }, r.2)

end TimerWrapper

namespace TimerWrapper

theorem filter_abort_eq_nil (l : List PendingOp) :
    (l.map PendingOp.abort).filter (fun p => completionInvokes p.cancelled) = [] := by
  induction l with
  | nil => rfl
  | cons p rest ih => simp [PendingOp.abort, completionInvokes, ih]

theorem cancelOneAux_aborted_append (l : List PendingOp) (h : Nat) :
    cancelOneAux (l.map PendingOp.abort ++ [PendingOp.mk h false]) =
      (l.map PendingOp.abort ++ [PendingOp.mk h true], 1) := by
  induction l with
  | nil => rfl
  | cons p rest ih => simp [cancelOneAux, PendingOp.abort, ih]

theorem filter_abort_append_aborted (l : List PendingOp) (h : Nat) :
    (l.map PendingOp.abort ++ [PendingOp.mk h true]).filter
      (fun p => completionInvokes p.cancelled) = [] := by
  simp only [List.filter_append, filter_abort_eq_nil, List.nil_append]
  simp [completionInvokes]

end TimerWrapper

namespace TimerWrapper

/-- C1: AsyncWait(d, h) invokes the handler exactly once when the armed
completion fires without the cancelled indicator (here from a clean pending
queue), and invokes it zero times when the completion carries the cancelled
indicator because Cancel or CancelOne was applied to the registered operation
before the reactor processed it; the returned invocation list is the only
observable, no error or status value exists in the signature. -/
theorem asyncWait_invokes_once_unless_cancelled
    (now ms : Int) (h : Nat) (s : SteadyTimer) (hs : s.ioStopped = false) :
    (s.pending = [] → (AsyncWait now ms h s).2 = [h]) ∧
    (runPrim (Cancel (asyncWaitPrim h
        (expiresAfterPrim now (ms * nsPerMillisecond) s))).1).2 = [] ∧
    (runPrim (CancelOne (asyncWaitPrim h
        (expiresAfterPrim now (ms * nsPerMillisecond) s))).1).2 = [] := by
  refine ⟨fun hp => ?_, ?_, ?_⟩
  · simp [AsyncWait, expiresAfterPrim, setExpiry, asyncWaitPrim, runPrim, resetPrim,
      completionInvokes, hp, hs]
  · simp [Cancel, asyncWaitPrim, expiresAfterPrim, setExpiry, runPrim, hs,
      PendingOp.abort, completionInvokes]
  · simp only [CancelOne, asyncWaitPrim, expiresAfterPrim, setExpiry]
    simp only [cancelOneAux_aborted_append]
    simp [runPrim, hs, PendingOp.abort, completionInvokes]

/-- C1 witness: concrete instantiation, firing path and the Cancel path. -/
theorem asyncWait_invokes_once_unless_cancelled_witness :
    (AsyncWait 0 5 3 SteadyTimer.new).2 = [3] ∧
    (runPrim (Cancel (asyncWaitPrim 3
        (expiresAfterPrim 0 (5 * nsPerMillisecond) SteadyTimer.new))).1).2 = [] :=
  ⟨(asyncWait_invokes_once_unless_cancelled 0 5 3 SteadyTimer.new rfl).1 rfl,
   (asyncWait_invokes_once_unless_cancelled 0 5 3 SteadyTimer.new rfl).2.1⟩

/-- C2: AsyncWait is, step for step, arm (expires_after), register
(async_wait), run, reset; after it returns the reactor is ready again (not
stopped, no pending work), and two strictly sequential AsyncWait calls on the
same instance fire their handlers exactly once each, in call order. -/
theorem asyncWait_arm_register_run_reset_sequential
    (n1 d1 n2 d2 : Int) (h1 h2 : Nat) (s : SteadyTimer)
    (hp : s.pending = []) (hs : s.ioStopped = false) :
    (AsyncWait n1 d1 h1 s =
      (resetPrim (runPrim (asyncWaitPrim h1
          (expiresAfterPrim n1 (d1 * nsPerMillisecond) s))).1,
       (runPrim (asyncWaitPrim h1
          (expiresAfterPrim n1 (d1 * nsPerMillisecond) s))).2)) ∧
    (AsyncWait n1 d1 h1 s).1.pending = [] ∧
    (AsyncWait n1 d1 h1 s).1.ioStopped = false ∧
    (AsyncWait n1 d1 h1 s).2 = [h1] ∧
    (AsyncWait n2 d2 h2 (AsyncWait n1 d1 h1 s).1).2 = [h2] ∧
    (AsyncWait n1 d1 h1 s).2 ++ (AsyncWait n2 d2 h2 (AsyncWait n1 d1 h1 s).1).2 =
      [h1, h2] := by
  refine ⟨rfl, ?_, ?_, ?_, ?_, ?_⟩ <;>
    simp [AsyncWait, expiresAfterPrim, setExpiry, asyncWaitPrim, runPrim, resetPrim,
      completionInvokes, hp, hs]

/-- C2 witness: two sequential waits on a fresh timer fire h1 then h2. -/
theorem asyncWait_arm_register_run_reset_sequential_witness :
    (AsyncWait 0 50 1 SteadyTimer.new).2 ++
      (AsyncWait 100 30 2 (AsyncWait 0 50 1 SteadyTimer.new).1).2 = [1, 2] :=
  (asyncWait_arm_register_run_reset_sequential 0 50 100 30 1 2 SteadyTimer.new
    rfl rfl).2.2.2.2.2

end TimerWrapper

namespace TimerWrapper

/-- C3: for monotonic instants t0 at Start and t1 at Stop with t0 before t1,
GetElapsedMilliseconds returns the floor of the difference in milliseconds,
which for a nonnegative difference coincides with truncation toward zero (the
duration_cast semantics the code uses); GetElapsedSeconds and
GetElapsedNanoseconds truncate to their units the same way. -/
theorem elapsed_truncation (t0 t1 : Int) (s : SteadyTimer) (h : t0 ≤ t1) :
    GetElapsedMilliseconds (Stop t1 (Start t0 s)) = Int.fdiv (t1 - t0) 1000000 ∧
    GetElapsedMilliseconds (Stop t1 (Start t0 s)) = Int.tdiv (t1 - t0) 1000000 ∧
    GetElapsedSeconds (Stop t1 (Start t0 s)) = Int.fdiv (t1 - t0) 1000000000 ∧
    GetElapsedSeconds (Stop t1 (Start t0 s)) = Int.tdiv (t1 - t0) 1000000000 ∧
    GetElapsedNanoseconds (Stop t1 (Start t0 s)) = t1 - t0 := by
  have hd : (0 : Int) ≤ t1 - t0 := by omega
  have hms : Int.fdiv (t1 - t0) 1000000 = Int.tdiv (t1 - t0) 1000000 :=
    Int.fdiv_eq_tdiv hd (by norm_num)
  have hsec : Int.fdiv (t1 - t0) 1000000000 = Int.tdiv (t1 - t0) 1000000000 :=
    Int.fdiv_eq_tdiv hd (by norm_num)
  refine ⟨?_, ?_, ?_, ?_, ?_⟩ <;>
    simp [GetElapsedMilliseconds, GetElapsedSeconds, GetElapsedNanoseconds,
      Start, Stop, nsPerMillisecond, nsPerSecond, hms, hsec]

/-- C3 witness: a concrete 123456789 ns interval truncates to 123 ms. -/
theorem elapsed_truncation_witness :
    GetElapsedMilliseconds (Stop 123456789 (Start 0 SteadyTimer.new)) =
      Int.fdiv (123456789 - 0) 1000000 ∧
    GetElapsedMilliseconds (Stop 123456789 (Start 0 SteadyTimer.new)) =
      Int.tdiv (123456789 - 0) 1000000 ∧
    GetElapsedSeconds (Stop 123456789 (Start 0 SteadyTimer.new)) =
      Int.fdiv (123456789 - 0) 1000000000 ∧
    GetElapsedSeconds (Stop 123456789 (Start 0 SteadyTimer.new)) =
      Int.tdiv (123456789 - 0) 1000000000 ∧
    GetElapsedNanoseconds (Stop 123456789 (Start 0 SteadyTimer.new)) =
      123456789 - 0 :=
  elapsed_truncation 0 123456789 SteadyTimer.new (by norm_num)

/-- C4: Cancel with no pending operation returns 0; Cancel with exactly one
pending (not yet cancelled) operation returns 1 and the next reactor run
processes the completion with the cancelled indicator, so the registered
handler is never invoked. -/
theorem cancel_count_and_handler_skipped (s : SteadyTimer) (id : Nat)
    (hs : s.ioStopped = false) :
    (s.pending = [] → (Cancel s).2 = 0) ∧
    (s.pending = [PendingOp.mk id false] →
      (Cancel s).2 = 1 ∧ (runPrim (Cancel s).1).2 = []) := by
  refine ⟨fun hp => ?_, fun hp => ⟨?_, ?_⟩⟩
  · simp [Cancel, hp]
  · simp [Cancel, hp]
  · simp [Cancel, hp, runPrim, hs, PendingOp.abort, completionInvokes]

/-- C4 witness: both branches at concrete states. -/
theorem cancel_count_and_handler_skipped_witness :
    (Cancel SteadyTimer.new).2 = 0 ∧
    (Cancel { SteadyTimer.new with pending := [PendingOp.mk 7 false] }).2 = 1 :=
  ⟨(cancel_count_and_handler_skipped SteadyTimer.new 7 rfl).1 rfl,
   ((cancel_count_and_handler_skipped
       { SteadyTimer.new with pending := [PendingOp.mk 7 false] } 7 rfl).2 rfl).1⟩

/-- C5: the claim asks that the armed expiry denote the same instant as the
supplied calendar timestamp.  The code reduces the DateTime to its ToFileTime
value (100 ns ticks since 1601) and feeds it, unconverted, to
system_clock::from_time_t, which reads it as seconds since 1970; for every
valid (nonnegative) file time the armed instant therefore differs from the
instant the timestamp denotes. -/
theorem expiresAt_arms_wrong_instant (ft : Int) (s : SteadyTimer)
    (hft : 0 ≤ ft) :
    (ExpiresAt ft s).expiry = fromTimeT ft ∧
    fromTimeT ft ≠ fileTimeInstant ft := by
  refine ⟨rfl, ?_⟩
  simp only [fromTimeT, fileTimeInstant, nsPerSecond, windowsToUnixEpochSeconds]
  omega

/-- C5 witness: the file time of the Unix epoch itself (1970-01-01 UTC); the
code arms an instant about 3.7 billion years in the future instead of 1970. -/
theorem expiresAt_arms_wrong_instant_witness :
    (ExpiresAt 116444736000000000 SteadyTimer.new).expiry =
      fromTimeT 116444736000000000 ∧
    fromTimeT 116444736000000000 ≠ fileTimeInstant 116444736000000000 :=
  expiresAt_arms_wrong_instant 116444736000000000 SteadyTimer.new (by norm_num)

/-- C6: ExpiresFromNow accepts every integer millisecond count, zero and
negative included, with no validation, and arms the deadline handle at exactly
now plus that many milliseconds, overwriting whatever expiry was armed before
(the new expiry is independent of the previous state). -/
theorem expiresFromNow_arms_now_plus_duration (now ms : Int) (s : SteadyTimer) :
    (ExpiresFromNow now ms s).expiry = now + ms * nsPerMillisecond ∧
    (ExpiresFromNow now ms s).startTime = s.startTime ∧
    (ExpiresFromNow now ms s).stopTime = s.stopTime ∧
    (ExpiresFromNow now ms s).ioStopped = s.ioStopped := by
  refine ⟨rfl, rfl, rfl, rfl⟩

/-- C7: the arming step inside AsyncWait (expires_after) produces, for every
duration and every starting state, exactly the state ExpiresFromNow
(expires_from_now) produces at the same instant, and in particular AsyncWait
leaves the deadline armed at the expiry ExpiresFromNow would arm. -/
theorem asyncWait_arm_refines_expiresFromNow (now ms : Int) (h : Nat)
    (s : SteadyTimer) :
    expiresAfterPrim now (ms * nsPerMillisecond) s = ExpiresFromNow now ms s ∧
    (AsyncWait now ms h s).1.expiry = (ExpiresFromNow now ms s).expiry := by
  refine ⟨rfl, ?_⟩
  simp only [AsyncWait, runPrim, resetPrim, asyncWaitPrim, expiresAfterPrim,
    ExpiresFromNow, expiresFromNowPrim, setExpiry]
  by_cases hb : s.ioStopped <;> simp [hb]

end TimerWrapper

namespace TimerWrapper

/-- C8: Start writes the current instant into the start time point and Stop
into the stop time point, each a total record update that alters no other
component; conversely the deadline and cancellation operations, Wait, and
AsyncWait never touch the two stopwatch instants, so the instants are mutated
only by Start and Stop, and Start and Stop touch neither the deadline handle
nor the reactor. -/
theorem start_stop_frame (t u now ms ft : Int) (h : Nat) (s : SteadyTimer) :
    Start t s = { s with startTime := t } ∧
    Stop u s = { s with stopTime := u } ∧
    (ExpiresAt ft s).startTime = s.startTime ∧
    (ExpiresAt ft s).stopTime = s.stopTime ∧
    (ExpiresFromNow now ms s).startTime = s.startTime ∧
    (ExpiresFromNow now ms s).stopTime = s.stopTime ∧
    (AsyncWait now ms h s).1.startTime = s.startTime ∧
    (AsyncWait now ms h s).1.stopTime = s.stopTime ∧
    (Cancel s).1.startTime = s.startTime ∧
    (Cancel s).1.stopTime = s.stopTime ∧
    (CancelOne s).1.startTime = s.startTime ∧
    (CancelOne s).1.stopTime = s.stopTime ∧
    Wait s = s := by
  refine ⟨rfl, rfl, rfl, rfl, rfl, rfl, ?_, ?_, rfl, rfl, rfl, rfl, rfl⟩ <;>
    · simp only [AsyncWait, runPrim, resetPrim, asyncWaitPrim, expiresAfterPrim,
        setExpiry]
      by_cases hb : s.ioStopped <;> simp [hb]

/-- C9: between one Start and Stop pair and the next, every elapsed time query
is a pure function of the two recorded instants: each query leaves the state
exactly as it was, two states agreeing on the recorded instants produce
identical query values, and interleaving the three queries in any order does
not change the values reported. -/
theorem elapsed_queries_pure (s s' : SteadyTimer)
    (h1 : s.startTime = s'.startTime) (h2 : s.stopTime = s'.stopTime) :
    (GetElapsedSecondsM s).2 = s ∧
    (GetElapsedMillisecondsM s).2 = s ∧
    (GetElapsedNanosecondsM s).2 = s ∧
    GetElapsedSeconds s = GetElapsedSeconds s' ∧
    GetElapsedMilliseconds s = GetElapsedMilliseconds s' ∧
    GetElapsedNanoseconds s = GetElapsedNanoseconds s' ∧
    (GetElapsedSecondsM (GetElapsedMillisecondsM
        (GetElapsedNanosecondsM s).2).2).1 = (GetElapsedSecondsM s).1 ∧
    (GetElapsedMillisecondsM (GetElapsedSecondsM s).2).1 =
      (GetElapsedMillisecondsM s).1 := by
  refine ⟨rfl, rfl, rfl, ?_, ?_, ?_, rfl, rfl⟩ <;>
    simp [GetElapsedSeconds, GetElapsedMilliseconds, GetElapsedNanoseconds, h1, h2]

/-- C9 witness: two states equal on the recorded instants but different in the
armed expiry report the same elapsed values. -/
theorem elapsed_queries_pure_witness :
    GetElapsedSeconds SteadyTimer.new =
      GetElapsedSeconds { SteadyTimer.new with expiry := 42 } :=
  (elapsed_queries_pure SteadyTimer.new { SteadyTimer.new with expiry := 42 }
    rfl rfl).2.2.2.1

/-- C10: although GetElapsedSeconds and GetElapsedMilliseconds return a
floating point number, the value is always the integral truncated count
converted exactly, a whole number with no fractional part, so the floating
point return type adds no sub unit precision. -/
theorem elapsed_double_is_whole (s : SteadyTimer) :
    (GetElapsedSecondsM s).1.den = 1 ∧
    (GetElapsedMillisecondsM s).1.den = 1 ∧
    (GetElapsedSecondsM s).1 = ((GetElapsedSeconds s : ℤ) : ℚ) ∧
    (GetElapsedMillisecondsM s).1 = ((GetElapsedMilliseconds s : ℤ) : ℚ) := by
  refine ⟨?_, ?_, rfl, rfl⟩ <;>
    simp [GetElapsedSecondsM, GetElapsedMillisecondsM]

end TimerWrapper
